import Mathlib

/-!
Verification development for the quiz/exam application.

The definitions below are a shallow embedding of the repository's
JavaScript sources:

* `MistakeBook`  — `src/models/MistakeBook.js` (mistake records, the
  spaced-repetition review scheduler `recordReview`, the `pre('save')`
  middleware, `createMistakeRecord`, `getRecommendedForReview`);
* `ExamRecordModel` — `src/models/ExamRecord.js` (grade computation in the
  `pre('save')` middleware);
* `SyncManager` — `src/unnamed/part_000` (export/import with validation,
  id-based deduplication, sample-data substitution);
* `CrossDeviceSyncV1` — `src/cross-device-sync.js`;
* `CrossDeviceSyncV2` — `src/unnamed/part_001`.

Modelling conventions: timestamps are `Int` (milliseconds since epoch;
adding `d` calendar days is modelled as adding `d * msPerDay`); JavaScript
numbers that only ever hold integers are `Nat`/`Int`; fractional
arithmetic (`Math.round`, score weights) uses `ℚ`; a JavaScript value
that may be absent/falsy is an `Option`; a JSON field that may be absent,
a non-array, or an array is a `JsField`.
-/

namespace MistakeBook

/-- Review-status enum of `mistakeBookSchema.reviewStatus`
(`unreviewed`, `reviewing`, `mastered`). -/
inductive ReviewStatus where
  | unreviewed
  | reviewing
  | mastered
deriving DecidableEq, Repr

/-- The `reviewInfo` sub-document of a mistake record. -/
structure ReviewInfo where
  reviewCount : Nat
  lastReviewDate : Option Int
  nextReviewDate : Int
  consecutiveCorrect : Nat
deriving DecidableEq, Repr

/-- The `errorStats` sub-document of a mistake record.  `errorRate` is the
integer produced by `Math.round` in the `pre('save')` middleware. -/
structure ErrorStats where
  totalAttempts : Nat
  correctAttempts : Nat
  errorRate : Int
deriving DecidableEq, Repr

/-- The `metadata` sub-document of a mistake record. -/
structure MistakeMetadata where
  isArchived : Bool
  archiveDate : Option Int
  isPublic : Bool
  viewCount : Nat
deriving DecidableEq, Repr

/-- A mistake record (`mistakeBookSchema`).  `user` and `question` stand for
the referenced ObjectIds; the denormalised `questionSnapshot` is not needed
by any claim and is omitted. -/
structure MistakeRecord where
  user : Nat
  question : Nat
  userAnswer : String
  mistakeReason : String
  tags : List String
  importance : Nat
  masteryLevel : Nat
  reviewStatus : ReviewStatus
  reviewInfo : ReviewInfo
  errorStats : ErrorStats
  source : String
  examRecord : Option Nat
  updatedAt : Int
  metadata : MistakeMetadata
deriving DecidableEq, Repr

/-- Milliseconds in a day: `nextReviewDate.setDate(getDate() + d)` is
modelled as adding `d * msPerDay`. -/
def msPerDay : Int := 86400000

/-- JavaScript `Math.round` (round half toward positive infinity). -/
def jsRound (x : ℚ) : Int := Int.floor (x + 1/2)

/-- The fixed Ebbinghaus interval table of `recordReview`
(`const intervals = [1, 2, 4, 7, 15, 30, 60, 90]`). -/
def intervals : List Nat := [1, 2, 4, 7, 15, 30, 60, 90]

/-- The `pre('save')` middleware of `mistakeBookSchema`: refresh
`updatedAt`, recompute `errorRate`, promote `masteryLevel` when the
consecutive-correct streak reaches 3, and archive the record once
`masteryLevel` reaches 5 (only when it is not already `mastered`). -/
def preSave (now : Int) (m : MistakeRecord) : MistakeRecord :=
  let m : MistakeRecord := { m with updatedAt := now }
  let rate : Int :=
    jsRound ((((m.errorStats.totalAttempts : ℚ) - (m.errorStats.correctAttempts : ℚ)) /
      (m.errorStats.totalAttempts : ℚ)) * 100)
  let m : MistakeRecord :=
    if m.errorStats.totalAttempts > 0 then
      { m with errorStats := { m.errorStats with errorRate := rate } }
    else m
  let m : MistakeRecord :=
    if m.reviewInfo.consecutiveCorrect ≥ 3 then
      { m with masteryLevel := min 5 (m.masteryLevel + 1),
               reviewInfo := { m.reviewInfo with consecutiveCorrect := 0 } }
    else m
  if m.masteryLevel ≥ 5 ∧ m.reviewStatus ≠ ReviewStatus.mastered then
    { m with reviewStatus := ReviewStatus.mastered,
             metadata := { m.metadata with isArchived := true, archiveDate := some now } }
  else m

/-- The body of `recordReview` on the record it found, before the final
`save()`: bump `reviewCount`/`lastReviewDate`; on a correct answer bump the
streak and `correctAttempts`, schedule the next review from the interval
table at index `min(consecutiveCorrect - 1, length - 1)` (using the already
incremented streak), and on every third correct raise `masteryLevel` and
reset the streak; on a wrong answer reset the streak, schedule an immediate
review and lower `masteryLevel` (floored at 1).  Finally bump
`totalAttempts`. -/
def recordReviewBody (now : Int) (m : MistakeRecord) (isCorrect : Bool) : MistakeRecord :=
  let ri : ReviewInfo := { m.reviewInfo with reviewCount := m.reviewInfo.reviewCount + 1, lastReviewDate := some now }
  let m : MistakeRecord := { m with reviewInfo := ri }
  let m : MistakeRecord :=
    if isCorrect then
      let ri : ReviewInfo := { m.reviewInfo with consecutiveCorrect := m.reviewInfo.consecutiveCorrect + 1 }
      let es : ErrorStats := { m.errorStats with correctAttempts := m.errorStats.correctAttempts + 1 }
      let m : MistakeRecord := { m with reviewInfo := ri, errorStats := es }
      let intervalIndex := min (m.reviewInfo.consecutiveCorrect - 1) (intervals.length - 1)
      let nextReviewDays := intervals.getD intervalIndex 0
      let ri : ReviewInfo := { m.reviewInfo with nextReviewDate := now + (nextReviewDays : Int) * msPerDay }
      let m : MistakeRecord := { m with reviewInfo := ri }
      if m.reviewInfo.consecutiveCorrect ≥ 3 then
        { m with masteryLevel := min 5 (m.masteryLevel + 1),
                 reviewInfo := { m.reviewInfo with consecutiveCorrect := 0 } }
      else m
    else
      { m with reviewInfo := { m.reviewInfo with consecutiveCorrect := 0, nextReviewDate := now },
               masteryLevel := max 1 (m.masteryLevel - 1) }
  { m with errorStats := { m.errorStats with totalAttempts := m.errorStats.totalAttempts + 1 } }

/-- `recordReview` on the record it found: the update body followed by
`save()`, which runs the `pre('save')` middleware. -/
def recordReview (now : Int) (m : MistakeRecord) (isCorrect : Bool) : MistakeRecord :=
  preSave now (recordReviewBody now m isCorrect)

/-- `n` consecutive correct reviews via `recordReview`. -/
def reviewN (now : Int) (m : MistakeRecord) : Nat → MistakeRecord
  | 0 => m
  | n + 1 => recordReview now (reviewN now m n) true

/-- A concrete mistake record used to instantiate theorems: masteryLevel 1,
a streak of 2 correct reviews. -/
def sampleRecord : MistakeRecord :=
  { user := 1
    question := 7
    userAnswer := "A"
    mistakeReason := ""
    tags := ["css"]
    importance := 3
    masteryLevel := 1
    reviewStatus := ReviewStatus.reviewing
    reviewInfo :=
      { reviewCount := 2
        lastReviewDate := none
        nextReviewDate := 0
        consecutiveCorrect := 2 }
    errorStats := { totalAttempts := 3, correctAttempts := 2, errorRate := 33 }
    source := "exam"
    examRecord := none
    updatedAt := 0
    metadata := { isArchived := false, archiveDate := none, isPublic := false, viewCount := 0 } }

/-- Schema-consistency of a record: a record marked `mastered` is archived. -/
def Good (m : MistakeRecord) : Prop :=
  m.reviewStatus = ReviewStatus.mastered → m.metadata.isArchived = true

/-- A record like `sampleRecord` but with no current streak. -/
def baseRecord : MistakeRecord :=
  { sampleRecord with reviewInfo := { sampleRecord.reviewInfo with consecutiveCorrect := 0 } }

/-- Output document of the aggregation in `getRecommendedForReview`: the
matched record plus the two fields added by the `$addFields` stage. -/
structure RecommendedDoc where
  base : MistakeRecord
  isOverdue : Bool
  reviewScore : ℚ
deriving DecidableEq, Repr

/-- MongoDB `$cond: [ref, 50, 0]` where `ref` is a field reference into the
stage input document: a missing, null or false operand selects the else
branch, so only an explicit `true` yields 50. -/
def condFifty : Option Bool → ℚ
  | some true => 50
  | _ => 0

/-- The `$addFields` stage of `getRecommendedForReview`.  Its two
expressions both evaluate against the stage *input* document
(MongoDB resolves sibling references within one `$addFields` against the
input, not against fields added in the same stage), so the `$isOverdue`
reference inside `reviewScore` reads `inputIsOverdue`, the `isOverdue`
field of the input document. -/
def addFieldsStage (now : Int) (doc : MistakeRecord) (inputIsOverdue : Option Bool) : RecommendedDoc :=
  { base := doc
    isOverdue := decide (doc.reviewInfo.nextReviewDate < now)
    reviewScore := (doc.importance : ℚ) * 20 + ((6 : ℚ) - (doc.masteryLevel : ℚ)) * 15 +
      condFifty inputIsOverdue + (doc.errorStats.errorRate : ℚ) * (0.5 : ℚ) }

/-- Insert a document into a list that is sorted by `reviewScore`
descending, keeping it before documents with an equal score. -/
def insertDesc (x : RecommendedDoc) : List RecommendedDoc → List RecommendedDoc
  | [] => [x]
  | y :: ys => if x.reviewScore < y.reviewScore then y :: insertDesc x ys else x :: y :: ys

/-- Stable sort by `reviewScore` descending, modelling the `$sort` stage
(`{ reviewScore: -1 }`). -/
def sortByScoreDesc : List RecommendedDoc → List RecommendedDoc
  | [] => []
  | x :: xs => insertDesc x (sortByScoreDesc xs)

/-- `getRecommendedForReview`: `$match` non-archived records of the user,
`$addFields` the overdue flag and the weighted score, `$sort` by score
descending, `$limit count`.  Documents coming from the collection carry no
`isOverdue` field, hence the `none` passed to the stage. -/
def getRecommendedForReview (now : Int) (store : List MistakeRecord) (count : Nat) : List RecommendedDoc :=
  let matched := store.filter (fun m => !m.metadata.isArchived)
  let withFields := matched.map (fun m => addFieldsStage now m none)
  (sortByScoreDesc withFields).take count

/-- A non-archived record whose next review is already due at time 0. -/
def overdueRec : MistakeRecord :=
  { baseRecord with reviewInfo := { baseRecord.reviewInfo with nextReviewDate := -1 } }

/-- The same record except that its next review is still in the future. -/
def freshRec : MistakeRecord :=
  { baseRecord with reviewInfo := { baseRecord.reviewInfo with nextReviewDate := 1 } }

end MistakeBook

namespace ExamRecordModel

/-- The `config` part of an exam record that the save middleware reads. -/
structure ExamConfig where
  totalQuestions : Nat
  passingScore : ℚ
deriving DecidableEq, Repr

/-- The `result` part of an exam record. -/
structure ExamResult where
  score : ℚ
  grade : String
  isPassed : Bool
  correctCount : Nat
  accuracy : Int
deriving DecidableEq, Repr

/-- An exam record (`examRecordSchema`), restricted to the fields the grade
computation touches. -/
structure ExamRecord where
  config : ExamConfig
  result : ExamResult
deriving DecidableEq, Repr

/-- The `pre('save')` middleware of `examRecordSchema`: derive the grade
from the score thresholds, the pass flag from `config.passingScore`, and
the accuracy percentage.  Share-code generation and the per-type/time
analyses write other sub-documents and never touch `result.grade`. -/
def preSave (r : ExamRecord) : ExamRecord :=
  let grade : String :=
    if r.result.score ≥ 90 then "优秀"
    else if r.result.score ≥ 80 then "良好"
    else if r.result.score ≥ 60 then "及格"
    else "不及格"
  let isPassed : Bool := decide (r.result.score ≥ r.config.passingScore)
  let accuracy : Int :=
    if r.config.totalQuestions > 0 then
      MistakeBook.jsRound (((r.result.correctCount : ℚ) / (r.config.totalQuestions : ℚ)) * 100)
    else r.result.accuracy
  { r with result := { r.result with grade := grade, isPassed := isPassed, accuracy := accuracy } }

/-- A concrete exam record with score 85. -/
def exam85 : ExamRecord :=
  { config := { totalQuestions := 10, passingScore := 60 }
    result := { score := 85, grade := "", isPassed := false, correctCount := 8, accuracy := 0 } }

end ExamRecordModel

namespace Sync

/-- A question or mistake-bank entry as the sync scripts see it: only the
`id` field is ever inspected by the merge logic; `payload` stands for the
remaining JSON fields. -/
structure Item where
  id : String
  payload : String
deriving DecidableEq, Repr

/-- An exam-record entry inside `studyStats.examRecords`; the merge logic
keys on `id` (part_000) or on `date` (part_001 and cross-device-sync.js). -/
structure ExamRec where
  id : String
  date : String
  payload : String
deriving DecidableEq, Repr

/-- The `studyStats` aggregate of the client store. -/
structure StudyStats where
  totalQuestions : Int
  correctAnswers : Int
  totalStudyTime : Int
  examRecords : List ExamRec
deriving DecidableEq, Repr

/-- A JSON field that may be absent (or falsy), present but not an array,
or an array. -/
inductive JsField (α : Type) where
  | missing
  | notArr
  | arr (xs : List α)
deriving DecidableEq, Repr

/-- The client's in-memory store (`window.app`): the two question banks,
the mistake bank and the study statistics. -/
structure AppStore where
  publicQuestionBank : List Item
  personalQuestionBank : List Item
  mistakeBank : List Item
  studyStats : StudyStats
deriving DecidableEq, Repr

/-- JavaScript truthiness of an optional string field (`!data.field`):
absent and empty strings are falsy. -/
def truthy : Option String → Bool
  | none => false
  | some s => !(s == "")

end Sync

namespace SyncManager

/-- The parsed import document of `SyncManager.importData`
(`src/unnamed/part_000`).  Required fields are optional strings (absent or
empty means falsy); `dataTypes` and the collections follow the JSON field
shapes. -/
structure ImportDoc where
  version : Option String
  exportTime : Option String
  deviceId : Option String
  dataTypes : Sync.JsField String
  publicQuestions : Sync.JsField Sync.Item
  personalQuestions : Sync.JsField Sync.Item
  mistakeBank : Sync.JsField Sync.Item
  studyStats : Option Sync.StudyStats
deriving Repr

/-- The valid entries of `dataTypes`. -/
def validDataTypes : List String :=
  ["publicQuestions", "personalQuestions", "mistakeBank", "studyStats"]

/-- `SyncManager.validateImportData`: `version`, `exportTime` and
`deviceId` must be truthy; `dataTypes`, when present (and truthy - an empty
array is truthy in JavaScript), must be an array, non-empty, and drawn from
`validDataTypes`.  An absent `dataTypes` passes. -/
def validateImportData (d : ImportDoc) : Bool :=
  Sync.truthy d.version && Sync.truthy d.exportTime && Sync.truthy d.deviceId &&
    (match d.dataTypes with
     | Sync.JsField.missing => true
     | Sync.JsField.notArr => false
     | Sync.JsField.arr ts => !ts.isEmpty && ts.all (fun t => decide (t ∈ validDataTypes)))

/-- `SyncManager.removeDuplicates`: keep only incoming items whose `id` is
not already present (`new Set(existing.map(i => i.id)).has`). -/
def removeDuplicates (newItems existingItems : List Sync.Item) : List Sync.Item :=
  newItems.filter (fun item => !decide (item.id ∈ existingItems.map Sync.Item.id))

/-- `SyncManager.mergeStudyStats`: keep the larger of each scalar counter
and append exam records whose `id` is not already present. -/
def mergeStudyStats (targetStats sourceStats : Sync.StudyStats) : Sync.StudyStats :=
  { totalQuestions :=
      if sourceStats.totalQuestions > targetStats.totalQuestions then sourceStats.totalQuestions
      else targetStats.totalQuestions
    correctAnswers :=
      if sourceStats.correctAnswers > targetStats.correctAnswers then sourceStats.correctAnswers
      else targetStats.correctAnswers
    totalStudyTime :=
      if sourceStats.totalStudyTime > targetStats.totalStudyTime then sourceStats.totalStudyTime
      else targetStats.totalStudyTime
    examRecords :=
      targetStats.examRecords ++
        sourceStats.examRecords.filter (fun record =>
          !decide (record.id ∈ targetStats.examRecords.map Sync.ExamRec.id)) }

/-- The merge body of `SyncManager.importData`, run once the document has
been validated: each collection that is present as an array is merged by
appending the non-duplicate items; a present `studyStats` object is merged
with `mergeStudyStats`. -/
def importBody (d : ImportDoc) (app : Sync.AppStore) : Sync.AppStore :=
  { publicQuestionBank :=
      match d.publicQuestions with
      | Sync.JsField.arr qs => app.publicQuestionBank ++ removeDuplicates qs app.publicQuestionBank
      | _ => app.publicQuestionBank
    personalQuestionBank :=
      match d.personalQuestions with
      | Sync.JsField.arr qs => app.personalQuestionBank ++ removeDuplicates qs app.personalQuestionBank
      | _ => app.personalQuestionBank
    mistakeBank :=
      match d.mistakeBank with
      | Sync.JsField.arr ms => app.mistakeBank ++ removeDuplicates ms app.mistakeBank
      | _ => app.mistakeBank
    studyStats :=
      match d.studyStats with
      | some s => mergeStudyStats app.studyStats s
      | none => app.studyStats }

/-- `SyncManager.importData`: validation failure throws before any local
state is touched (`none`); otherwise the merge body runs. -/
def importData (d : ImportDoc) (app : Sync.AppStore) : Option Sync.AppStore :=
  if validateImportData d then some (importBody d app) else none

end SyncManager

namespace CrossDeviceSyncV1

/-- The parsed sync document of `src/cross-device-sync.js`
`importSyncData`: no validation is performed, the parsed JSON is merged
directly. -/
structure SyncDoc where
  deviceId : Option String
  exportTime : Option String
  publicQuestions : Sync.JsField Sync.Item
  personalQuestions : Sync.JsField Sync.Item
  mistakeBank : Sync.JsField Sync.Item
  studyStats : Option Sync.StudyStats
deriving Repr

/-- `CrossDeviceSync.mergePublicQuestions` (cross-device-sync.js): append
only questions whose `id` is not already in the bank. -/
def mergePublicQuestions (currentQuestions newQuestions : List Sync.Item) : List Sync.Item :=
  currentQuestions ++
    newQuestions.filter (fun q => !decide (q.id ∈ currentQuestions.map Sync.Item.id))

/-- `CrossDeviceSync.importSyncData` (cross-device-sync.js): public
questions are merged through `mergePublicQuestions`, but personal questions
and mistake-bank entries are pushed wholesale with no deduplication. -/
def importSyncData (d : SyncDoc) (app : Sync.AppStore) : Sync.AppStore :=
  { publicQuestionBank :=
      match d.publicQuestions with
      | Sync.JsField.arr qs =>
        if qs.length > 0 then mergePublicQuestions app.publicQuestionBank qs
        else app.publicQuestionBank
      | _ => app.publicQuestionBank
    personalQuestionBank :=
      match d.personalQuestions with
      | Sync.JsField.arr qs =>
        if qs.length > 0 then app.personalQuestionBank ++ qs else app.personalQuestionBank
      | _ => app.personalQuestionBank
    mistakeBank :=
      match d.mistakeBank with
      | Sync.JsField.arr ms =>
        if ms.length > 0 then app.mistakeBank ++ ms else app.mistakeBank
      | _ => app.mistakeBank
    studyStats := app.studyStats }

end CrossDeviceSyncV1

namespace CrossDeviceSyncV2

/-- The `data` envelope of a part_001 sync document. -/
structure SyncData where
  publicQuestions : Sync.JsField Sync.Item
  personalQuestions : Sync.JsField Sync.Item
  mistakeBank : Sync.JsField Sync.Item
  studyStats : Option Sync.StudyStats
deriving Repr

/-- The parsed sync document of `src/unnamed/part_001`.  The wire format
(spec section 6) may carry a `dataTypes` list, but this implementation
never reads it. -/
structure SyncDoc where
  version : Option String
  deviceId : Option String
  exportTime : Option String
  dataTypes : Sync.JsField String
  data : Option SyncData
deriving Repr

/-- A present-but-non-array JSON field. -/
def isNotArr {α : Type} : Sync.JsField α → Bool
  | Sync.JsField.notArr => true
  | _ => false

/-- `CrossDeviceSync.validateSyncData` (part_001): `deviceId`,
`exportTime` and the `data` object must be present, and each optional
collection inside `data`, when truthy, must be an array.  Neither
`version` nor `dataTypes` is checked. -/
def validateSyncData (d : SyncDoc) : Bool :=
  Sync.truthy d.deviceId && Sync.truthy d.exportTime &&
    (match d.data with
     | none => false
     | some dd =>
       !(isNotArr dd.publicQuestions) && !(isNotArr dd.personalQuestions) &&
         !(isNotArr dd.mistakeBank))

/-- `CrossDeviceSync.mergePublicQuestions` (part_001). -/
def mergePublicQuestions (currentQuestions newQuestions : List Sync.Item) : List Sync.Item :=
  currentQuestions ++
    newQuestions.filter (fun q => !decide (q.id ∈ currentQuestions.map Sync.Item.id))

/-- `CrossDeviceSync.mergePersonalQuestions` (part_001). -/
def mergePersonalQuestions (currentQuestions newQuestions : List Sync.Item) : List Sync.Item :=
  currentQuestions ++
    newQuestions.filter (fun q => !decide (q.id ∈ currentQuestions.map Sync.Item.id))

/-- `CrossDeviceSync.mergeMistakeBank` (part_001). -/
def mergeMistakeBank (currentMistakes newMistakes : List Sync.Item) : List Sync.Item :=
  currentMistakes ++
    newMistakes.filter (fun m => !decide (m.id ∈ currentMistakes.map Sync.Item.id))

/-- `CrossDeviceSync.mergeStudyStats` (part_001): larger scalar counters
win; exam records are appended when their `date` is not already present. -/
def mergeStudyStats (appStats importedStats : Sync.StudyStats) : Sync.StudyStats :=
  { totalQuestions :=
      if importedStats.totalQuestions > appStats.totalQuestions then importedStats.totalQuestions
      else appStats.totalQuestions
    correctAnswers :=
      if importedStats.correctAnswers > appStats.correctAnswers then importedStats.correctAnswers
      else appStats.correctAnswers
    totalStudyTime :=
      if importedStats.totalStudyTime > appStats.totalStudyTime then importedStats.totalStudyTime
      else appStats.totalStudyTime
    examRecords :=
      appStats.examRecords ++
        importedStats.examRecords.filter (fun record =>
          !decide (record.date ∈ appStats.examRecords.map Sync.ExamRec.date)) }

/-- The merge body of part_001 `importSyncData` once validation passed:
merge each collection of `data` that is present as an array, then the study
statistics. -/
def importBody (dd : SyncData) (app : Sync.AppStore) : Sync.AppStore :=
  { publicQuestionBank :=
      match dd.publicQuestions with
      | Sync.JsField.arr qs => mergePublicQuestions app.publicQuestionBank qs
      | _ => app.publicQuestionBank
    personalQuestionBank :=
      match dd.personalQuestions with
      | Sync.JsField.arr qs => mergePersonalQuestions app.personalQuestionBank qs
      | _ => app.personalQuestionBank
    mistakeBank :=
      match dd.mistakeBank with
      | Sync.JsField.arr ms => mergeMistakeBank app.mistakeBank ms
      | _ => app.mistakeBank
    studyStats :=
      match dd.studyStats with
      | some s => mergeStudyStats app.studyStats s
      | none => app.studyStats }

/-- `CrossDeviceSync.importSyncData` (part_001): a document failing
`validateSyncData` is rejected before any merge (`none`). -/
def importSyncData (d : SyncDoc) (app : Sync.AppStore) : Option Sync.AppStore :=
  if validateSyncData d then
    some (match d.data with
          | some dd => importBody dd app
          | none => app)
  else none

end CrossDeviceSyncV2

/-- The empty client store. -/
def emptyStore : Sync.AppStore :=
  { publicQuestionBank := []
    personalQuestionBank := []
    mistakeBank := []
    studyStats := { totalQuestions := 0, correctAnswers := 0, totalStudyTime := 0, examRecords := [] } }

/-- A sync document carrying one personal question. -/
def onePersonalDoc : CrossDeviceSyncV1.SyncDoc :=
  { deviceId := some "device_a"
    exportTime := some "2024-01-01T00:00:00Z"
    publicQuestions := Sync.JsField.missing
    personalQuestions := Sync.JsField.arr [{ id := "q1", payload := "" }]
    mistakeBank := Sync.JsField.missing
    studyStats := none }

namespace SyncManager

/-- A `dataTypes` field that `validateImportData` rejects: present but not
an array, or an empty array, or containing an entry outside
`validDataTypes`. -/
def dataTypesInvalid : Sync.JsField String → Bool
  | Sync.JsField.missing => false
  | Sync.JsField.notArr => true
  | Sync.JsField.arr ts => ts.isEmpty || !(ts.all (fun t => decide (t ∈ validDataTypes)))

end SyncManager

/-- A structurally well-formed part_001 document whose `dataTypes` is the
empty array. -/
def emptyTypesDoc : CrossDeviceSyncV2.SyncDoc :=
  { version := some "1.0.0"
    deviceId := some "device_b"
    exportTime := some "2024-01-02T00:00:00Z"
    dataTypes := Sync.JsField.arr []
    data := some
      { publicQuestions := Sync.JsField.arr []
        personalQuestions := Sync.JsField.arr []
        mistakeBank := Sync.JsField.arr []
        studyStats := none } }

/-- A document rejected by part_000 (empty dataTypes array). -/
def badTypesDoc : SyncManager.ImportDoc :=
  { version := some "1.0.0"
    exportTime := some "2024-01-02T00:00:00Z"
    deviceId := some "device_x"
    dataTypes := Sync.JsField.arr []
    publicQuestions := Sync.JsField.arr [{ id := "q9", payload := "" }]
    personalQuestions := Sync.JsField.missing
    mistakeBank := Sync.JsField.missing
    studyStats := none }

/-- A part_001 document with no exportTime. -/
def noExportTimeDoc : CrossDeviceSyncV2.SyncDoc :=
  { version := none
    deviceId := some "device_c"
    exportTime := none
    dataTypes := Sync.JsField.missing
    data := some
      { publicQuestions := Sync.JsField.missing
        personalQuestions := Sync.JsField.missing
        mistakeBank := Sync.JsField.missing
        studyStats := none } }

namespace SyncManager

/-- The client state `SyncManager.exportData` reads; each bank may be
absent (`undefined`). -/
structure ClientApp where
  publicQuestionBank : Option (List Sync.Item)
  personalQuestionBank : Option (List Sync.Item)
  mistakeBank : Option (List Sync.Item)
  studyStats : Option Sync.StudyStats
deriving Repr

/-- The options of `SyncManager.exportData` (all default to true). -/
structure ExportOptions where
  includePublic : Bool
  includePersonal : Bool
  includeMistakes : Bool
  includeStats : Bool
deriving Repr

/-- The default export options. -/
def defaultOptions : ExportOptions :=
  { includePublic := true, includePersonal := true, includeMistakes := true, includeStats := true }

/-- The export document built by `SyncManager.exportData`. -/
structure ExportDoc where
  version : String
  deviceId : String
  exportTime : String
  dataTypes : List String
  statsPublicQuestions : Option Nat
  statsPersonalQuestions : Option Nat
  statsMistakes : Option Nat
  statsTotalQuestions : Nat
  publicQuestions : Option (List Sync.Item)
  personalQuestions : Option (List Sync.Item)
  mistakeBank : Option (List Sync.Item)
  studyStats : Option Sync.StudyStats
  isSampleData : Bool
deriving Repr, DecidableEq

/-- `stats.x || 0`: an absent counter counts as 0. -/
def bankCount : Option Nat → Nat
  | none => 0
  | some n => n

/-- `SyncManager.generateSampleData`: three sample public questions and two
sample personal questions whose ids embed the current timestamp; `payload`
holds the question text. -/
def generateSampleData (nowMs : Nat) : List Sync.Item × List Sync.Item :=
  ([{ id := "sample_pub_1_" ++ toString nowMs, payload := "HTML5中用于定义文档主要内容的标签是：" },
    { id := "sample_pub_2_" ++ toString nowMs, payload := "CSS中，哪个属性用于设置元素的外边距？" },
    { id := "sample_pub_3_" ++ toString nowMs, payload := "JavaScript中，以下哪个方法用于向数组末尾添加元素？" }],
   [{ id := "sample_per_1_" ++ toString nowMs, payload := "Vue组件的data选项必须是一个函数。" },
    { id := "sample_per_2_" ++ toString nowMs, payload := "CSS Grid布局可以创建二维布局。" }])

/-- `SyncManager.exportData`: collect the selected banks, their counts and
the `dataTypes` list (pushed in the order public, personal, mistakes,
stats); when nothing is exportable or the total question count is zero,
substitute the generated sample data, overwrite `dataTypes` with the two
question types, and mark the document `isSampleData`. -/
def exportData (nowMs : Nat) (deviceId exportTime : String) (app : ClientApp)
    (opts : ExportOptions) : ExportDoc :=
  let pub : Option (List Sync.Item) := if opts.includePublic then app.publicQuestionBank else none
  let per : Option (List Sync.Item) := if opts.includePersonal then app.personalQuestionBank else none
  let mis : Option (List Sync.Item) := if opts.includeMistakes then app.mistakeBank else none
  let sts : Option Sync.StudyStats := if opts.includeStats then app.studyStats else none
  let dataTypes : List String :=
    (if pub.isSome then ["publicQuestions"] else []) ++
      (if per.isSome then ["personalQuestions"] else []) ++
      (if mis.isSome then ["mistakeBank"] else []) ++
      (if sts.isSome then ["studyStats"] else [])
  let statsPub : Option Nat := pub.map List.length
  let statsPer : Option Nat := per.map List.length
  let totalQuestions : Nat := bankCount statsPub + bankCount statsPer
  if dataTypes.isEmpty || totalQuestions == 0 then
    let sample := generateSampleData nowMs
    { version := "1.0.0"
      deviceId := deviceId
      exportTime := exportTime
      dataTypes := ["publicQuestions", "personalQuestions"]
      statsPublicQuestions := some sample.1.length
      statsPersonalQuestions := some sample.2.length
      statsMistakes := mis.map List.length
      statsTotalQuestions := sample.1.length + sample.2.length
      publicQuestions := some sample.1
      personalQuestions := some sample.2
      mistakeBank := mis
      studyStats := sts
      isSampleData := true }
  else
    { version := "1.0.0"
      deviceId := deviceId
      exportTime := exportTime
      dataTypes := dataTypes
      statsPublicQuestions := statsPub
      statsPersonalQuestions := statsPer
      statsMistakes := mis.map List.length
      statsTotalQuestions := totalQuestions
      publicQuestions := pub
      personalQuestions := per
      mistakeBank := mis
      studyStats := sts
      isSampleData := false }

/-- A client with nothing stored. -/
def emptyClientApp : ClientApp :=
  { publicQuestionBank := none, personalQuestionBank := none, mistakeBank := none,
    studyStats := none }

end SyncManager

namespace MistakeBook

/-- The `mistakeData` argument of `createMistakeRecord`.  Optional fields
model absent-or-falsy values, for which the code falls back (`||`) to the
existing record's value or to the schema default. -/
structure MistakeData where
  user : Nat
  question : Nat
  userAnswer : String
  mistakeReason : Option String
  importance : Option Nat
  tags : Option (List String)
  source : Option String
  examRecord : Option Nat
deriving Repr

/-- One step of `[...new Set(l)]`: append an element unless present. -/
def insertUnique (acc : List String) (x : String) : List String :=
  if x ∈ acc then acc else acc ++ [x]

/-- `[...new Set(l)]`: deduplicate keeping first occurrences. -/
def setDedup (l : List String) : List String := l.foldl insertUnique []

/-- The `findOne` filter of `createMistakeRecord`: same user, same
question, not archived. -/
def mistakeMatches (u q : Nat) (m : MistakeRecord) : Bool :=
  m.user == u && m.question == q && !m.metadata.isArchived

/-- The in-place update `createMistakeRecord` applies to an existing
record: bump `totalAttempts`, overwrite `userAnswer`, fall back on falsy
`mistakeReason`/`importance`/`source`/`examRecord`, and union the tags. -/
def updateExisting (data : MistakeData) (m : MistakeRecord) : MistakeRecord :=
  { m with
    errorStats := { m.errorStats with totalAttempts := m.errorStats.totalAttempts + 1 }
    userAnswer := data.userAnswer
    mistakeReason := data.mistakeReason.getD m.mistakeReason
    importance := data.importance.getD m.importance
    tags := setDedup (m.tags ++ data.tags.getD [])
    source := data.source.getD m.source
    examRecord := data.examRecord.orElse (fun _ => m.examRecord) }

/-- `new this(mistakeData)`: a fresh record with the schema defaults. -/
def newRecord (now : Int) (data : MistakeData) : MistakeRecord :=
  { user := data.user
    question := data.question
    userAnswer := data.userAnswer
    mistakeReason := data.mistakeReason.getD ""
    tags := data.tags.getD []
    importance := data.importance.getD 3
    masteryLevel := 1
    reviewStatus := ReviewStatus.unreviewed
    reviewInfo := { reviewCount := 0, lastReviewDate := none, nextReviewDate := now, consecutiveCorrect := 0 }
    errorStats := { totalAttempts := 1, correctAttempts := 0, errorRate := 100 }
    source := data.source.getD "exam"
    examRecord := data.examRecord
    updatedAt := now
    metadata := { isArchived := false, archiveDate := none, isPublic := false, viewCount := 0 } }

/-- Persisting the in-place update of a found document: the first record
matching the filter is replaced. -/
def setFirst (p : MistakeRecord → Bool) (y : MistakeRecord) : List MistakeRecord → List MistakeRecord
  | [] => []
  | x :: xs => if p x then y :: xs else x :: setFirst p y xs

/-- `createMistakeRecord` over the user's collection: update the existing
non-archived record for the (user, question) pair when there is one,
otherwise insert a fresh record; both paths `save()` through the
middleware. -/
def createMistakeRecord (now : Int) (data : MistakeData) (store : List MistakeRecord) :
    MistakeRecord × List MistakeRecord :=
  match store.find? (mistakeMatches data.user data.question) with
  | some existing =>
    let updated := preSave now (updateExisting data existing)
    (updated, setFirst (mistakeMatches data.user data.question) updated store)
  | none =>
    let fresh := preSave now (newRecord now data)
    (fresh, store ++ [fresh])

/-- The number of non-archived records of a (user, question) pair. -/
def nonArchivedFor (u q : Nat) (store : List MistakeRecord) : Nat :=
  (store.filter (mistakeMatches u q)).length

/-- The uniqueness invariant: at most one non-archived record per
(user, question) pair. -/
def atMostOnePerPair (store : List MistakeRecord) : Prop :=
  ∀ u q, nonArchivedFor u q store ≤ 1

/-- The mistake data of a repeated wrong answer to the question of
`sampleRecord` by the same user. -/
def sampleMistakeData : MistakeData :=
  { user := 1
    question := 7
    userAnswer := "B"
    mistakeReason := some "概念混淆"
    importance := some 4
    tags := some ["html"]
    source := some "practice"
    examRecord := none }

end MistakeBook

namespace MistakeBook

/-- Closed form of the `recordReview` body for an incorrect answer. -/
lemma recordReviewBody_false (now : Int) (m : MistakeRecord) :
    recordReviewBody now m false =
      { m with
        masteryLevel := max 1 (m.masteryLevel - 1)
        reviewInfo :=
          { reviewCount := m.reviewInfo.reviewCount + 1
            lastReviewDate := some now
            nextReviewDate := now
            consecutiveCorrect := 0 }
        errorStats := { m.errorStats with totalAttempts := m.errorStats.totalAttempts + 1 } } := rfl

/-- Closed form of the `recordReview` body for a correct answer. -/
lemma recordReviewBody_true (now : Int) (m : MistakeRecord) :
    recordReviewBody now m true =
      { m with
        masteryLevel :=
          (if m.reviewInfo.consecutiveCorrect + 1 ≥ 3 then min 5 (m.masteryLevel + 1)
           else m.masteryLevel)
        reviewInfo :=
          { reviewCount := m.reviewInfo.reviewCount + 1
            lastReviewDate := some now
            nextReviewDate := now + ((intervals.getD (min (m.reviewInfo.consecutiveCorrect + 1 - 1) (intervals.length - 1)) 0 : Nat) : Int) * msPerDay
            consecutiveCorrect :=
              (if m.reviewInfo.consecutiveCorrect + 1 ≥ 3 then 0
               else m.reviewInfo.consecutiveCorrect + 1) }
        errorStats :=
          { m.errorStats with
            totalAttempts := m.errorStats.totalAttempts + 1
            correctAttempts := m.errorStats.correctAttempts + 1 } } := by
  dsimp only [recordReviewBody]
  simp only [reduceIte]
  split_ifs <;> rfl

/-- The save middleware only resets the streak inside `reviewInfo`. -/
lemma preSave_reviewInfo (now : Int) (m : MistakeRecord) :
    (preSave now m).reviewInfo =
      (if 3 ≤ m.reviewInfo.consecutiveCorrect then { m.reviewInfo with consecutiveCorrect := 0 }
       else m.reviewInfo) := by
  dsimp only [preSave]
  split_ifs <;> rfl

/-- Mastery level after the save middleware. -/
lemma preSave_masteryLevel (now : Int) (m : MistakeRecord) :
    (preSave now m).masteryLevel =
      (if 3 ≤ m.reviewInfo.consecutiveCorrect then min 5 (m.masteryLevel + 1)
       else m.masteryLevel) := by
  dsimp only [preSave]
  split_ifs <;> rfl

/-- C1: on a correct review, `recordReview` increments
`reviewInfo.consecutiveCorrect` by one and schedules
`reviewInfo.nextReviewDate` to now plus `d` days, where `d` is the entry of
the fixed table `[1, 2, 4, 7, 15, 30, 60, 90]` at index
`min(consecutiveCorrect - 1, 7)` computed from the already incremented
counter (the increment is afterwards consumed by the reset when the streak
reaches 3). -/
theorem c1_correct_review_schedule (now : Int) (m : MistakeRecord) :
    (recordReview now m true).reviewInfo.nextReviewDate =
      now + ((intervals.getD (min (m.reviewInfo.consecutiveCorrect + 1 - 1)
        (intervals.length - 1)) 0 : Nat) : Int) * msPerDay ∧
    (recordReview now m true).reviewInfo.consecutiveCorrect =
      (if m.reviewInfo.consecutiveCorrect + 1 ≥ 3 then 0
       else m.reviewInfo.consecutiveCorrect + 1) := by
  refine ⟨?_, ?_⟩ <;>
    simp only [recordReview, recordReviewBody_true, preSave_reviewInfo] <;>
    (try dsimp only) <;>
    split_ifs <;>
    first | rfl | omega

/-- C4: on an incorrect review, `recordReview` resets the
consecutive-correct streak to 0, schedules an immediate re-review
(`nextReviewDate = now`) and lowers `masteryLevel` by one, floored at 1. -/
theorem c4_incorrect_review (now : Int) (m : MistakeRecord) :
    (recordReview now m false).reviewInfo.consecutiveCorrect = 0 ∧
    (recordReview now m false).reviewInfo.nextReviewDate = now ∧
    (recordReview now m false).masteryLevel = max 1 (m.masteryLevel - 1) := by
  refine ⟨?_, ?_, ?_⟩ <;>
    simp only [recordReview, recordReviewBody_false, preSave_reviewInfo, preSave_masteryLevel] <;>
    (try dsimp only) <;>
    split_ifs <;>
    first | rfl | omega

/-- C3 counterexample: for a record with `masteryLevel = 1` and
`consecutiveCorrect = 2`, one more correct review does NOT schedule the next
review at now + 1 day (interval-table index 0); the interval index is
computed from the incremented streak 3 before the reset, giving index 2 and
a delay of 4 days. -/
theorem c3_counterexample :
    sampleRecord.masteryLevel = 1 ∧
    sampleRecord.reviewInfo.consecutiveCorrect = 2 ∧
    (recordReview 0 sampleRecord true).reviewInfo.nextReviewDate ≠ 0 + 1 * msPerDay := by
  decide

/-- C3 amended: for a record with `masteryLevel = 1` and
`consecutiveCorrect = 2`, one more correct review yields streak 3, hence
`masteryLevel` becomes 2 and the streak resets to 0, but `nextReviewDate`
is set to now + 4 days (interval-table index 2, because the index is taken
from the incremented streak 3 before the reset). -/
theorem c3_amended_third_correct (now : Int) (m : MistakeRecord)
    (h1 : m.masteryLevel = 1) (h2 : m.reviewInfo.consecutiveCorrect = 2) :
    (recordReview now m true).reviewInfo.consecutiveCorrect = 0 ∧
    (recordReview now m true).masteryLevel = 2 ∧
    (recordReview now m true).reviewInfo.nextReviewDate = now + 4 * msPerDay := by
  refine ⟨?_, ?_, ?_⟩ <;>
    simp [recordReview, recordReviewBody_true, preSave_reviewInfo, preSave_masteryLevel, h1, h2,
      intervals]

/-- C3 amended, witness: the amended statement evaluated on a concrete
record. -/
theorem c3_amended_witness :
    (recordReview 0 sampleRecord true).reviewInfo.consecutiveCorrect = 0 ∧
    (recordReview 0 sampleRecord true).masteryLevel = 2 ∧
    (recordReview 0 sampleRecord true).reviewInfo.nextReviewDate = 0 + 4 * msPerDay :=
  c3_amended_third_correct 0 sampleRecord rfl rfl

lemma preSave_reviewStatus (now : Int) (m : MistakeRecord) :
    (preSave now m).reviewStatus =
      (if (if 3 ≤ m.reviewInfo.consecutiveCorrect then min 5 (m.masteryLevel + 1)
            else m.masteryLevel) ≥ 5 ∧ m.reviewStatus ≠ ReviewStatus.mastered
       then ReviewStatus.mastered else m.reviewStatus) := by
  dsimp only [preSave]
  split_ifs <;> first | rfl | tauto

lemma preSave_isArchived (now : Int) (m : MistakeRecord) :
    (preSave now m).metadata.isArchived =
      (if (if 3 ≤ m.reviewInfo.consecutiveCorrect then min 5 (m.masteryLevel + 1)
            else m.masteryLevel) ≥ 5 ∧ m.reviewStatus ≠ ReviewStatus.mastered
       then true else m.metadata.isArchived) := by
  dsimp only [preSave]
  split_ifs <;> first | rfl | tauto

lemma good_recordReview (now : Int) (m : MistakeRecord) (b : Bool) (h : Good m) :
    Good (recordReview now m b) := by
  intro hs
  cases b <;>
    simp only [recordReview, recordReviewBody_false, recordReviewBody_true,
      preSave_reviewStatus, preSave_isArchived] at hs ⊢ <;>
    (try dsimp only at hs ⊢) <;>
    split_ifs at hs ⊢ <;>
    simp_all [Good]

lemma archived_of_mastery (now : Int) (m : MistakeRecord) (b : Bool) (h : Good m)
    (h5 : 5 ≤ (recordReview now m b).masteryLevel) :
    (recordReview now m b).metadata.isArchived = true ∧
    (recordReview now m b).reviewStatus = ReviewStatus.mastered := by
  cases b <;>
    simp only [recordReview, recordReviewBody_false, recordReviewBody_true,
      preSave_masteryLevel, preSave_reviewStatus, preSave_isArchived] at h5 ⊢ <;>
    (try dsimp only at h5 ⊢) <;>
    split_ifs at h5 ⊢ <;>
    simp_all [Good] <;>
    omega

lemma good_reviewN (now : Int) (m : MistakeRecord) (h : Good m) :
    ∀ n, Good (reviewN now m n)
  | 0 => h
  | n + 1 => good_recordReview now (reviewN now m n) true (good_reviewN now m h n)

lemma reviewStep_cc_lt (now : Int) (m : MistakeRecord)
    (h : m.reviewInfo.consecutiveCorrect + 1 < 3) :
    (recordReview now m true).masteryLevel = m.masteryLevel ∧
    (recordReview now m true).reviewInfo.consecutiveCorrect = m.reviewInfo.consecutiveCorrect + 1 := by
  refine ⟨?_, ?_⟩ <;>
    simp only [recordReview, recordReviewBody_true, preSave_masteryLevel, preSave_reviewInfo] <;>
    (try dsimp only) <;>
    split_ifs <;>
    first | rfl | omega

lemma reviewStep_cc_eq2 (now : Int) (m : MistakeRecord)
    (h : m.reviewInfo.consecutiveCorrect = 2) :
    (recordReview now m true).masteryLevel = min 5 (m.masteryLevel + 1) ∧
    (recordReview now m true).reviewInfo.consecutiveCorrect = 0 := by
  refine ⟨?_, ?_⟩ <;>
    simp only [recordReview, recordReviewBody_true, preSave_masteryLevel, preSave_reviewInfo] <;>
    (try dsimp only) <;>
    split_ifs <;>
    first | rfl | omega

lemma reviewN_add (now : Int) (m : MistakeRecord) (a b : Nat) :
    reviewN now m (a + b) = reviewN now (reviewN now m a) b := by
  induction b with
  | zero => rfl
  | succ b ih => simp [reviewN, ih]

lemma reviewThree (now : Int) (m : MistakeRecord)
    (h : m.reviewInfo.consecutiveCorrect = 0) :
    (reviewN now m 3).masteryLevel = min 5 (m.masteryLevel + 1) ∧
    (reviewN now m 3).reviewInfo.consecutiveCorrect = 0 := by
  have e1 := reviewStep_cc_lt now m (by omega)
  have e2 := reviewStep_cc_lt now (recordReview now m true) (by omega)
  have e3 := reviewStep_cc_eq2 now (recordReview now (recordReview now m true) true) (by omega)
  have hn : reviewN now m 3 =
      recordReview now (recordReview now (recordReview now m true) true) true := rfl
  rw [hn]
  constructor
  · rw [e3.1, e2.1, e1.1]
  · exact e3.2

lemma reviewN_mastery (now : Int) (m : MistakeRecord) (k : Nat)
    (h2 : m.masteryLevel ≤ 5) (hc : m.reviewInfo.consecutiveCorrect = 0) :
    (reviewN now m (3 * k)).masteryLevel = min (m.masteryLevel + k) 5 ∧
    (reviewN now m (3 * k)).reviewInfo.consecutiveCorrect = 0 := by
  induction k with
  | zero =>
    refine ⟨?_, hc⟩
    simp only [Nat.mul_zero, reviewN]
    omega
  | succ k ih =>
    have hsplit : 3 * (k + 1) = 3 * k + 3 := by omega
    rw [hsplit, reviewN_add]
    have e3 := reviewThree now (reviewN now m (3 * k)) ih.2
    refine ⟨?_, e3.2⟩
    rw [e3.1, ih.1]
    omega

/-- C2: starting from a schema-consistent record (masteryLevel between 1
and 5, no current streak, mastered implies archived), 3k consecutive
correct reviews raise `masteryLevel` to `min (masteryLevel + k) 5` with the
streak reset to 0 after each third correct, and immediately after any
review that leaves `masteryLevel` at 5 the record is archived
(`metadata.isArchived = true`) with `reviewStatus = mastered`. -/
theorem c2_mastery_progression (now : Int) (m : MistakeRecord) (k : Nat)
    (h1 : 1 ≤ m.masteryLevel) (h2 : m.masteryLevel ≤ 5)
    (hc : m.reviewInfo.consecutiveCorrect = 0)
    (hg : m.reviewStatus = ReviewStatus.mastered → m.metadata.isArchived = true) :
    (reviewN now m (3 * k)).masteryLevel = min (m.masteryLevel + k) 5 ∧
    (reviewN now m (3 * k)).reviewInfo.consecutiveCorrect = 0 ∧
    (∀ n, 1 ≤ n → 5 ≤ (reviewN now m n).masteryLevel →
      (reviewN now m n).metadata.isArchived = true ∧
      (reviewN now m n).reviewStatus = ReviewStatus.mastered) := by
  have hm := reviewN_mastery now m k h2 hc
  refine ⟨hm.1, hm.2, ?_⟩
  intro n hn h5
  obtain ⟨p, rfl⟩ : ∃ p, n = p + 1 := ⟨n - 1, by omega⟩
  have hstep : reviewN now m (p + 1) = recordReview now (reviewN now m p) true := rfl
  rw [hstep] at h5 ⊢
  exact archived_of_mastery now (reviewN now m p) true (good_reviewN now m hg p) h5

/-- C2 witness: the statement instantiated with a concrete record,
masteryLevel 1, and k = 2. -/
theorem c2_witness :
    (reviewN 0 baseRecord (3 * 2)).masteryLevel = min (baseRecord.masteryLevel + 2) 5 ∧
    (reviewN 0 baseRecord (3 * 2)).reviewInfo.consecutiveCorrect = 0 ∧
    (∀ n, 1 ≤ n → 5 ≤ (reviewN 0 baseRecord n).masteryLevel →
      (reviewN 0 baseRecord n).metadata.isArchived = true ∧
      (reviewN 0 baseRecord n).reviewStatus = ReviewStatus.mastered) :=
  c2_mastery_progression 0 baseRecord 2 (by decide) (by decide) (by decide) (by decide)

/-- C7 (bug evidence): on two records identical except that one is overdue
(`nextReviewDate` in the past) and the other is not, `getRecommendedForReview`
computes the overdue flag correctly but assigns BOTH records the same
`reviewScore`: the `$cond` on `$isOverdue` reads the stage input document,
which carries no `isOverdue` field, so the 50-point overdue bonus promised
by the claim (and by the code's own comment) is never applied. -/
theorem c7_overdue_bonus_never_applied :
    ((getRecommendedForReview 0 [overdueRec, freshRec] 10).map fun d => d.isOverdue) = [true, false] ∧
    ((getRecommendedForReview 0 [overdueRec, freshRec] 10).map fun d => d.reviewScore) =
      [151.5, 151.5] := by
  norm_num [getRecommendedForReview, sortByScoreDesc, insertDesc, addFieldsStage, condFifty,
    overdueRec, freshRec, baseRecord, sampleRecord, List.filter, List.map]

end MistakeBook

namespace ExamRecordModel

/-- C8: saving an exam record derives `result.grade` from `result.score`
alone by fixed thresholds: at least 90 gives excellent, 80 to below 90
gives good, 60 to below 80 gives pass, below 60 gives fail. -/
theorem c8_grade_thresholds (r : ExamRecord) :
    (90 ≤ r.result.score → (preSave r).result.grade = "优秀") ∧
    (80 ≤ r.result.score ∧ r.result.score < 90 → (preSave r).result.grade = "良好") ∧
    (60 ≤ r.result.score ∧ r.result.score < 80 → (preSave r).result.grade = "及格") ∧
    (r.result.score < 60 → (preSave r).result.grade = "不及格") := by
  refine ⟨?_, ?_, ?_, ?_⟩
  all_goals intro h
  all_goals try obtain ⟨ha, hb⟩ := h
  all_goals dsimp only [preSave]
  all_goals split_ifs <;> first | rfl | linarith

/-- C8 witness: a record with score 85 is graded good. -/
theorem c8_grade_witness : (preSave exam85).result.grade = "良好" :=
  (c8_grade_thresholds exam85).2.1 ⟨by norm_num [exam85], by norm_num [exam85]⟩

end ExamRecordModel

namespace Sync

/-- After one id-keyed merge, a second merge of the same items filters
everything out: every incoming key is already present.  This is the common
deduplication pattern of all three sync implementations. -/
lemma mergeNew_key_second_empty {α β : Type} (key : α → β) [DecidableEq β]
    (cur new : List α) :
    new.filter (fun x =>
      !decide (key x ∈ (cur ++ new.filter (fun y => !decide (key y ∈ cur.map key))).map key)) = [] := by
  rw [List.filter_eq_nil_iff]
  intro x hx
  simp only [List.map_append, List.mem_append, Bool.not_eq_true', decide_eq_false_iff_not, not_not]
  by_cases hk : key x ∈ cur.map key
  · exact Or.inl hk
  · refine Or.inr (List.mem_map_of_mem key (List.mem_filter.mpr ⟨hx, ?_⟩))
    simp [hk]

lemma removeDuplicates_append_self (cur new : List Sync.Item) :
    SyncManager.removeDuplicates new (cur ++ SyncManager.removeDuplicates new cur) = [] := by
  simpa only [SyncManager.removeDuplicates] using
    Sync.mergeNew_key_second_empty Sync.Item.id cur new

lemma push_removeDuplicates_idem (cur new : List Sync.Item) :
    (cur ++ SyncManager.removeDuplicates new cur) ++
      SyncManager.removeDuplicates new (cur ++ SyncManager.removeDuplicates new cur) =
      cur ++ SyncManager.removeDuplicates new cur := by
  rw [removeDuplicates_append_self, List.append_nil]

lemma smMergeStudyStats_idem (t s : Sync.StudyStats) :
    SyncManager.mergeStudyStats (SyncManager.mergeStudyStats t s) s =
      SyncManager.mergeStudyStats t s := by
  obtain ⟨tq, ca, ts, er⟩ := t
  obtain ⟨sq, sa, ss, es⟩ := s
  dsimp only [SyncManager.mergeStudyStats]
  simp only [Sync.StudyStats.mk.injEq]
  refine ⟨?_, ?_, ?_, ?_⟩
  · split_ifs <;> omega
  · split_ifs <;> omega
  · split_ifs <;> omega
  · rw [Sync.mergeNew_key_second_empty Sync.ExamRec.id er es, List.append_nil]

lemma v2MergePublic_idem (cur new : List Sync.Item) :
    CrossDeviceSyncV2.mergePublicQuestions (CrossDeviceSyncV2.mergePublicQuestions cur new) new =
      CrossDeviceSyncV2.mergePublicQuestions cur new := by
  dsimp only [CrossDeviceSyncV2.mergePublicQuestions]
  rw [Sync.mergeNew_key_second_empty Sync.Item.id cur new, List.append_nil]

lemma v2MergePersonal_idem (cur new : List Sync.Item) :
    CrossDeviceSyncV2.mergePersonalQuestions (CrossDeviceSyncV2.mergePersonalQuestions cur new) new =
      CrossDeviceSyncV2.mergePersonalQuestions cur new := by
  dsimp only [CrossDeviceSyncV2.mergePersonalQuestions]
  rw [Sync.mergeNew_key_second_empty Sync.Item.id cur new, List.append_nil]

lemma v2MergeMistake_idem (cur new : List Sync.Item) :
    CrossDeviceSyncV2.mergeMistakeBank (CrossDeviceSyncV2.mergeMistakeBank cur new) new =
      CrossDeviceSyncV2.mergeMistakeBank cur new := by
  dsimp only [CrossDeviceSyncV2.mergeMistakeBank]
  rw [Sync.mergeNew_key_second_empty Sync.Item.id cur new, List.append_nil]

lemma v2MergeStudyStats_idem (t s : Sync.StudyStats) :
    CrossDeviceSyncV2.mergeStudyStats (CrossDeviceSyncV2.mergeStudyStats t s) s =
      CrossDeviceSyncV2.mergeStudyStats t s := by
  obtain ⟨tq, ca, ts, er⟩ := t
  obtain ⟨sq, sa, ss, es⟩ := s
  dsimp only [CrossDeviceSyncV2.mergeStudyStats]
  simp only [Sync.StudyStats.mk.injEq]
  refine ⟨?_, ?_, ?_, ?_⟩
  · split_ifs <;> omega
  · split_ifs <;> omega
  · split_ifs <;> omega
  · rw [Sync.mergeNew_key_second_empty Sync.ExamRec.date er es, List.append_nil]

end Sync

/-- C5 amended: a second merge of the same export document adds nothing
for the implementations that deduplicate by key: the whole merge body of
SyncManager.importData (part_000), the whole merge body of part_001
importSyncData, and the public-question merge of cross-device-sync.js.
(The personal-question and mistake-bank pushes of cross-device-sync.js
importSyncData are NOT idempotent, see the counterexample.) -/
theorem c5_amended_merge_idempotence :
    (∀ (d : SyncManager.ImportDoc) (app : Sync.AppStore),
      SyncManager.importBody d (SyncManager.importBody d app) = SyncManager.importBody d app) ∧
    (∀ (dd : CrossDeviceSyncV2.SyncData) (app : Sync.AppStore),
      CrossDeviceSyncV2.importBody dd (CrossDeviceSyncV2.importBody dd app) =
        CrossDeviceSyncV2.importBody dd app) ∧
    (∀ (cur new : List Sync.Item),
      CrossDeviceSyncV1.mergePublicQuestions (CrossDeviceSyncV1.mergePublicQuestions cur new) new =
        CrossDeviceSyncV1.mergePublicQuestions cur new) := by
  refine ⟨?_, ?_, ?_⟩
  · intro d app
    obtain ⟨v, et, dev, dt, pq, per, mb, ss⟩ := d
    cases pq <;> cases per <;> cases mb <;> cases ss <;>
      simp only [SyncManager.importBody, Sync.AppStore.mk.injEq,
        Sync.push_removeDuplicates_idem, Sync.smMergeStudyStats_idem, and_self, and_true,
        true_and]
  · intro dd app
    obtain ⟨pq, per, mb, ss⟩ := dd
    cases pq <;> cases per <;> cases mb <;> cases ss <;>
      simp only [CrossDeviceSyncV2.importBody, Sync.AppStore.mk.injEq,
        Sync.v2MergePublic_idem, Sync.v2MergePersonal_idem, Sync.v2MergeMistake_idem,
        Sync.v2MergeStudyStats_idem, and_self, and_true, true_and]
  · intro cur new
    dsimp only [CrossDeviceSyncV1.mergePublicQuestions]
    rw [Sync.mergeNew_key_second_empty Sync.Item.id cur new, List.append_nil]

/-- C5 counterexample: importing the same document twice through
cross-device-sync.js importSyncData duplicates the personal-question
collection (it is pushed without deduplication), so the second import adds
a record instead of zero. -/
theorem c5_counterexample :
    (CrossDeviceSyncV1.importSyncData onePersonalDoc
        (CrossDeviceSyncV1.importSyncData onePersonalDoc emptyStore)).personalQuestionBank.length = 2 ∧
    (CrossDeviceSyncV1.importSyncData onePersonalDoc emptyStore).personalQuestionBank.length = 1 := by
  decide

/-- C6 amended: part_000 SyncManager.importData rejects, without touching
the store, any document whose version, exportTime or deviceId is missing,
or whose dataTypes is present but not a non-empty array drawn from the
valid set; part_001 CrossDeviceSync.importSyncData rejects only documents
missing deviceId, exportTime or the data object, and performs no dataTypes
check at all. -/
theorem c6_amended_validation :
    (∀ (d : SyncManager.ImportDoc) (app : Sync.AppStore),
      (Sync.truthy d.version = false ∨ Sync.truthy d.exportTime = false ∨
       Sync.truthy d.deviceId = false ∨ SyncManager.dataTypesInvalid d.dataTypes = true) →
      SyncManager.importData d app = none) ∧
    (∀ (d : CrossDeviceSyncV2.SyncDoc) (app : Sync.AppStore),
      (Sync.truthy d.deviceId = false ∨ Sync.truthy d.exportTime = false ∨ d.data = none) →
      CrossDeviceSyncV2.importSyncData d app = none) := by
  constructor
  · intro d app h
    suffices hv : SyncManager.validateImportData d = false by
      simp [SyncManager.importData, hv]
    rcases h with h | h | h | h
    · simp [SyncManager.validateImportData, h]
    · simp [SyncManager.validateImportData, h]
    · simp [SyncManager.validateImportData, h]
    · cases hdt : d.dataTypes with
      | missing => simp [SyncManager.dataTypesInvalid, hdt] at h
      | notArr => simp [SyncManager.validateImportData, hdt]
      | arr ts =>
        simp only [SyncManager.dataTypesInvalid, hdt, Bool.or_eq_true, Bool.not_eq_true'] at h
        simp only [SyncManager.validateImportData, hdt, Bool.and_eq_false_iff]
        rcases h with h | h
        · exact Or.inr (Or.inl (by simp [h]))
        · exact Or.inr (Or.inr h)
  · intro d app h
    suffices hv : CrossDeviceSyncV2.validateSyncData d = false by
      simp [CrossDeviceSyncV2.importSyncData, hv]
    rcases h with h | h | h
    · simp [CrossDeviceSyncV2.validateSyncData, h]
    · simp [CrossDeviceSyncV2.validateSyncData, h]
    · simp [CrossDeviceSyncV2.validateSyncData, h]

/-- C6 counterexample: a document whose dataTypes is the empty array (so
not a non-empty array drawn from the valid set) passes part_001
validateSyncData and is imported rather than rejected. -/
theorem c6_counterexample :
    emptyTypesDoc.dataTypes = Sync.JsField.arr [] ∧
    CrossDeviceSyncV2.validateSyncData emptyTypesDoc = true ∧
    (CrossDeviceSyncV2.importSyncData emptyTypesDoc emptyStore).isSome = true := by
  decide

/-- C6 amended, witness: a concrete empty-dataTypes document is rejected
by part_000 and a concrete document without exportTime is rejected by
part_001. -/
theorem c6_amended_witness :
    SyncManager.importData badTypesDoc emptyStore = none ∧
    CrossDeviceSyncV2.importSyncData noExportTimeDoc emptyStore = none :=
  ⟨c6_amended_validation.1 badTypesDoc emptyStore (Or.inr (Or.inr (Or.inr (by decide)))),
   c6_amended_validation.2 noExportTimeDoc emptyStore (Or.inr (Or.inl (by decide)))⟩

/-- C10: when a client store offers no exportable data type or zero total
questions, SyncManager.exportData (with the default options) substitutes
the generated sample data - 3 public and 2 personal questions - sets
dataTypes to the two question types, marks the document isSampleData, and
the exported document has a positive total question count. -/
theorem c10_sample_data_fallback (nowMs : Nat) (dev t : String) (app : SyncManager.ClientApp)
    (h : (app.publicQuestionBank = none ∧ app.personalQuestionBank = none ∧
          app.mistakeBank = none ∧ app.studyStats = none) ∨
         SyncManager.bankCount (app.publicQuestionBank.map List.length) +
           SyncManager.bankCount (app.personalQuestionBank.map List.length) = 0) :
    (SyncManager.exportData nowMs dev t app SyncManager.defaultOptions).isSampleData = true ∧
    (SyncManager.exportData nowMs dev t app SyncManager.defaultOptions).publicQuestions =
      some (SyncManager.generateSampleData nowMs).1 ∧
    (SyncManager.exportData nowMs dev t app SyncManager.defaultOptions).personalQuestions =
      some (SyncManager.generateSampleData nowMs).2 ∧
    (SyncManager.generateSampleData nowMs).1.length = 3 ∧
    (SyncManager.generateSampleData nowMs).2.length = 2 ∧
    (SyncManager.exportData nowMs dev t app SyncManager.defaultOptions).dataTypes =
      ["publicQuestions", "personalQuestions"] ∧
    0 < (SyncManager.exportData nowMs dev t app SyncManager.defaultOptions).statsTotalQuestions := by
  dsimp only [SyncManager.exportData, SyncManager.defaultOptions]
  simp only [reduceIte]
  rcases h with ⟨h1, h2, h3, h4⟩ | h
  · rw [if_pos (by simp [h1, h2, h3, h4])]
    simp [SyncManager.generateSampleData]
  · rw [if_pos (by simp [h])]
    simp [SyncManager.generateSampleData]

/-- C10 witness: exporting a completely empty client store. -/
theorem c10_sample_data_witness :
    (SyncManager.exportData 1700000000000 "device_w" "2024-01-01" SyncManager.emptyClientApp
        SyncManager.defaultOptions).isSampleData = true ∧
    (SyncManager.exportData 1700000000000 "device_w" "2024-01-01" SyncManager.emptyClientApp
        SyncManager.defaultOptions).publicQuestions =
      some (SyncManager.generateSampleData 1700000000000).1 ∧
    (SyncManager.exportData 1700000000000 "device_w" "2024-01-01" SyncManager.emptyClientApp
        SyncManager.defaultOptions).personalQuestions =
      some (SyncManager.generateSampleData 1700000000000).2 ∧
    (SyncManager.generateSampleData 1700000000000).1.length = 3 ∧
    (SyncManager.generateSampleData 1700000000000).2.length = 2 ∧
    (SyncManager.exportData 1700000000000 "device_w" "2024-01-01" SyncManager.emptyClientApp
        SyncManager.defaultOptions).dataTypes = ["publicQuestions", "personalQuestions"] ∧
    0 < (SyncManager.exportData 1700000000000 "device_w" "2024-01-01" SyncManager.emptyClientApp
        SyncManager.defaultOptions).statsTotalQuestions :=
  c10_sample_data_fallback 1700000000000 "device_w" "2024-01-01" SyncManager.emptyClientApp
    (Or.inl ⟨rfl, rfl, rfl, rfl⟩)

namespace MistakeBook

lemma preSave_user (now : Int) (m : MistakeRecord) : (preSave now m).user = m.user := by
  dsimp only [preSave]; split_ifs <;> rfl

lemma preSave_question (now : Int) (m : MistakeRecord) : (preSave now m).question = m.question := by
  dsimp only [preSave]; split_ifs <;> rfl

lemma preSave_userAnswer (now : Int) (m : MistakeRecord) :
    (preSave now m).userAnswer = m.userAnswer := by
  dsimp only [preSave]; split_ifs <;> rfl

lemma preSave_tags (now : Int) (m : MistakeRecord) : (preSave now m).tags = m.tags := by
  dsimp only [preSave]; split_ifs <;> rfl

lemma preSave_totalAttempts (now : Int) (m : MistakeRecord) :
    (preSave now m).errorStats.totalAttempts = m.errorStats.totalAttempts := by
  dsimp only [preSave]; split_ifs <;> rfl

lemma length_setFirst (p : MistakeRecord → Bool) (y : MistakeRecord) (store : List MistakeRecord) :
    (setFirst p y store).length = store.length := by
  induction store with
  | nil => rfl
  | cons x xs ih => dsimp only [setFirst]; split_ifs <;> simp [ih]

lemma mistakeMatches_iff (u q : Nat) (m : MistakeRecord) :
    mistakeMatches u q m = true ↔ m.user = u ∧ m.question = q ∧ m.metadata.isArchived = false := by
  simp [mistakeMatches, and_assoc]

/-- Replacing a record that matched the (u0, q0) filter by a record of the
same pair never increases any pair's non-archived count. -/
lemma nonArchivedFor_setFirst_le (u q u0 q0 : Nat) (y : MistakeRecord)
    (store : List MistakeRecord) (hyu : y.user = u0) (hyq : y.question = q0) :
    nonArchivedFor u q (setFirst (mistakeMatches u0 q0) y store) ≤ nonArchivedFor u q store := by
  induction store with
  | nil => simp [setFirst, nonArchivedFor]
  | cons x xs ih =>
    dsimp only [setFirst]
    by_cases hx : mistakeMatches u0 q0 x = true
    · rw [if_pos hx]
      by_cases hy : mistakeMatches u q y = true
      · have hxm : mistakeMatches u q x = true := by
          rw [mistakeMatches_iff] at hx hy ⊢
          refine ⟨?_, ?_, hx.2.2⟩
          · rw [hx.1, ← hyu, hy.1]
          · rw [hx.2.1, ← hyq, hy.2.1]
        simp [nonArchivedFor, List.filter_cons, hy, hxm]
      · simp only [nonArchivedFor, List.filter_cons, hy, Bool.false_eq_true, if_false]
        cases hxx : mistakeMatches u q x <;> simp <;> omega
    · rw [if_neg hx]
      simp only [nonArchivedFor, List.filter_cons] at ih ⊢
      cases hxx : mistakeMatches u q x <;> simp [ih]

/-- C9: `createMistakeRecord` preserves the invariant that at most one
non-archived mistake record exists per (user, question) pair, and when a
matching non-archived record already exists it creates no new record
(the collection keeps its length) but updates the existing one - bumping
`errorStats.totalAttempts` by one, overwriting `userAnswer`, unioning the
tags - and returns that updated record (same user and question). -/
theorem c9_unique_nonarchived_record (now : Int) (data : MistakeData) (store : List MistakeRecord)
    (hinv : atMostOnePerPair store) :
    atMostOnePerPair (createMistakeRecord now data store).2 ∧
    (∀ existing, store.find? (mistakeMatches data.user data.question) = some existing →
      (createMistakeRecord now data store).2.length = store.length ∧
      (createMistakeRecord now data store).1.errorStats.totalAttempts =
        existing.errorStats.totalAttempts + 1 ∧
      (createMistakeRecord now data store).1.userAnswer = data.userAnswer ∧
      (createMistakeRecord now data store).1.tags = setDedup (existing.tags ++ data.tags.getD []) ∧
      (createMistakeRecord now data store).1.user = data.user ∧
      (createMistakeRecord now data store).1.question = data.question) := by
  cases hfind : store.find? (mistakeMatches data.user data.question) with
  | some existing =>
    have hm := List.find?_some hfind
    rw [mistakeMatches_iff] at hm
    constructor
    · intro u q
      simp only [createMistakeRecord, hfind]
      refine le_trans (nonArchivedFor_setFirst_le u q data.user data.question _ store ?_ ?_)
        (hinv u q)
      · rw [preSave_user]; exact hm.1
      · rw [preSave_question]; exact hm.2.1
    · intro e he
      obtain rfl : existing = e := Option.some.inj he
      simp only [createMistakeRecord, hfind]
      refine ⟨length_setFirst _ _ _, ?_, ?_, ?_, ?_, ?_⟩
      · rw [preSave_totalAttempts]; rfl
      · rw [preSave_userAnswer]; rfl
      · rw [preSave_tags]; rfl
      · rw [preSave_user]; exact hm.1
      · rw [preSave_question]; exact hm.2.1
  | none =>
    have hnone := List.find?_eq_none.mp hfind
    constructor
    · intro u q
      simp only [createMistakeRecord, hfind]
      show (List.filter (mistakeMatches u q) (store ++ [preSave now (newRecord now data)])).length ≤ 1
      rw [List.filter_append, List.length_append]
      by_cases hf : mistakeMatches u q (preSave now (newRecord now data)) = true
      · have hpair : data.user = u ∧ data.question = q := by
          rw [mistakeMatches_iff] at hf
          constructor
          · rw [← hf.1, preSave_user]; rfl
          · rw [← hf.2.1, preSave_question]; rfl
        have hzero : store.filter (mistakeMatches u q) = [] := by
          rw [List.filter_eq_nil_iff]
          intro x hx
          rw [← hpair.1, ← hpair.2]
          exact hnone x hx
        simp [hzero, List.filter_cons, hf]
      · have hone : (List.filter (mistakeMatches u q) [preSave now (newRecord now data)]).length = 0 := by
          simp [List.filter_cons, hf]
        rw [hone, Nat.add_zero]
        exact hinv u q
    · intro e he
      exact absurd he (by simp)

/-- C9 witness: a second wrong answer to an already-recorded question. -/
theorem c9_unique_record_witness :
    atMostOnePerPair (createMistakeRecord 0 sampleMistakeData [sampleRecord]).2 ∧
    (∀ existing,
      [sampleRecord].find? (mistakeMatches sampleMistakeData.user sampleMistakeData.question) =
        some existing →
      (createMistakeRecord 0 sampleMistakeData [sampleRecord]).2.length = [sampleRecord].length ∧
      (createMistakeRecord 0 sampleMistakeData [sampleRecord]).1.errorStats.totalAttempts =
        existing.errorStats.totalAttempts + 1 ∧
      (createMistakeRecord 0 sampleMistakeData [sampleRecord]).1.userAnswer =
        sampleMistakeData.userAnswer ∧
      (createMistakeRecord 0 sampleMistakeData [sampleRecord]).1.tags =
        setDedup (existing.tags ++ sampleMistakeData.tags.getD []) ∧
      (createMistakeRecord 0 sampleMistakeData [sampleRecord]).1.user = sampleMistakeData.user ∧
      (createMistakeRecord 0 sampleMistakeData [sampleRecord]).1.question =
        sampleMistakeData.question) :=
  c9_unique_nonarchived_record 0 sampleMistakeData [sampleRecord] (by
    intro u q
    simp only [nonArchivedFor, List.filter]
    split <;> simp)

end MistakeBook
